import Mathlib

/-!
Shallow embedding of the cloudviews-light viewer scripts
(src/docs/script.js, src/unnamed/part_000 and the two scripts in
src/unnamed/part_001), together with proofs about the playback engine,
the loader and the three pointer interaction variants.

Time stamps and pixel coordinates are modelled as rationals; JavaScript
array indices as integers with the truncating remainder of the JS
operator; the image cache as an association list.  DOM style writes are
recorded as fields of explicit state records.
-/

namespace CloudViews

/-- A decoded image as cached by the loader: its source URL and natural
pixel dimensions (naturalWidth, naturalHeight). -/
structure CachedImage where
  src : String
  naturalWidth : ℚ
  naturalHeight : ℚ
deriving DecidableEq, Repr

/-- A DOM bounding rectangle in viewport coordinates, as returned by
getBoundingClientRect. -/
structure Rect where
  left : ℚ
  top : ℚ
  width : ℚ
  height : ℚ
deriving DecidableEq, Repr

/-- The JavaScript remainder operator truncates toward zero; Int.tmod has
the same convention. -/
def jsMod (a b : Int) : Int := Int.tmod a b

/-- JavaScript array indexing: undefined (none) for negative or
out-of-range indices. -/
def jsArrayGet (l : List String) (i : Int) : Option String :=
  if 0 ≤ i then l.get? i.toNat else none

/-- JavaScript object property access on the image cache: the entry for
the given path, none when the key is absent. -/
def cacheLookup : List (String × CachedImage) → String → Option CachedImage
  | [], _ => none
  | (k, v) :: rest, p => if k = p then some v else cacheLookup rest p

/-- A pointer event together with the live geometry that
getBoundingClientRect would report at the instant the event fires. -/
structure PointerEvent where
  pointerId : Int
  pointerType : String
  isPrimary : Bool
  clientX : ℚ
  clientY : ℚ
  liveImageRect : Rect
  liveContainerRect : Rect
deriving DecidableEq, Repr

namespace Playback

/-- The mutable module state of the viewer scripts (identical in all
three source variants), plus the DOM cells the script writes: the
scrubber control, the displayed image source, visibility of the
loading message / image / controls / scrubber, and the play button
label.  animationScheduled records whether a requestAnimationFrame
callback is pending. -/
structure PlayerState where
  imagePaths : List String
  imageCache : List (String × CachedImage)
  currentIndex : Int
  isPlaying : Bool
  lastFrameTime : ℚ
  animationScheduled : Bool
  scrubberValue : Int
  scrubberMax : Int
  scrubberRevealed : Bool
  displayedSrc : Option String
  loadingMessageText : String
  loadingVisible : Bool
  imageVisible : Bool
  controlsVisible : Bool
  playPauseBtnText : String
deriving DecidableEq, Repr

/-- Final-frame hold duration (LAST_FRAME_HOLD_TIME_MS), 1000 ms in all
variants. -/
def LAST_FRAME_HOLD_TIME_MS : ℚ := 1000

/-- FRAME_INTERVAL_MS = 1000 / ANIMATION_FPS (ANIMATION_FPS is 5 in
script.js and part_000, 7 in part_001; we keep it a parameter). -/
def FRAME_INTERVAL_MS (ANIMATION_FPS : ℚ) : ℚ := 1000 / ANIMATION_FPS

/-- displayFrame(index): look the path up in imagePaths, then in the
image cache; when both are present swap the displayed image source,
otherwise do nothing.  (In script.js the cached branch additionally
refreshes the magnifier background; that write does not touch any field
modelled here.) -/
def displayFrame (s : PlayerState) (index : Int) : PlayerState :=
  match jsArrayGet s.imagePaths index with
  | none => s
  | some path =>
    match cacheLookup s.imageCache path with
    | none => s
    | some cachedImage => { s with displayedSrc := some cachedImage.src }

/-- updateUI(index): set currentIndex, sync the scrubber value, then
display the frame. -/
def updateUI (s : PlayerState) (index : Int) : PlayerState :=
  displayFrame { s with currentIndex := index, scrubberValue := index } index

/-- startAnimation(): no-op while playing; otherwise flip to playing,
set the button label, record performance.now() as lastFrameTime and
schedule the animation callback. -/
def startAnimation (s : PlayerState) (now : ℚ) : PlayerState :=
  if s.isPlaying = true then s
  else { s with isPlaying := true, playPauseBtnText := "■ Pause",
                lastFrameTime := now, animationScheduled := true }

/-- stopAnimation(): no-op while stopped; otherwise flip to stopped, set
the button label and cancel the scheduled callback. -/
def stopAnimation (s : PlayerState) : PlayerState :=
  if s.isPlaying = false then s
  else { s with isPlaying := false, playPauseBtnText := "▶ Play",
                animationScheduled := false }

/-- togglePlayPause(): stop when playing; start when stopped and the
frame list is nonempty. -/
def togglePlayPause (s : PlayerState) (now : ℚ) : PlayerState :=
  if s.isPlaying = true then stopAnimation s
  else if 0 < s.imagePaths.length then startAnimation s now
  else s

/-- prevFrame(): stop, step the index back by one with the
(x - 1 + N) % N pattern, sync the UI. -/
def prevFrame (s : PlayerState) : PlayerState :=
  let s2 := stopAnimation s
  updateUI s2 (jsMod (s2.currentIndex - 1 + (s2.imagePaths.length : Int))
    (s2.imagePaths.length : Int))

/-- nextFrame(): stop, step the index forward by one modulo N, sync the
UI. -/
def nextFrame (s : PlayerState) : PlayerState :=
  let s2 := stopAnimation s
  updateUI s2 (jsMod (s2.currentIndex + 1) (s2.imagePaths.length : Int))

/-- handleScrubberInput(): stop, read the scrubber value back and sync
the UI to it. -/
def handleScrubberInput (s : PlayerState) : PlayerState :=
  let s2 := stopAnimation s
  updateUI s2 s2.scrubberValue

/-- runAnimationLoop(currentTime): one requestAnimationFrame callback.
An early return while stopped consumes the pending callback without
rescheduling; otherwise, when the elapsed time reaches the dwell
threshold of the current frame (the long hold on the last index,
FRAME_INTERVAL_MS otherwise) record currentTime as lastFrameTime and
advance the index by one modulo N through updateUI; in either case
reschedule. -/
def runAnimationLoop (fps : ℚ) (s : PlayerState) (currentTime : ℚ) : PlayerState :=
  if s.isPlaying = false then { s with animationScheduled := false }
  else
    let timeSinceLastFrame := currentTime - s.lastFrameTime
    let isLastFrame := s.currentIndex = (s.imagePaths.length : Int) - 1
    let currentFrameInterval :=
      if isLastFrame then LAST_FRAME_HOLD_TIME_MS else FRAME_INTERVAL_MS fps
    if currentFrameInterval ≤ timeSinceLastFrame then
      { updateUI { s with lastFrameTime := currentTime }
          (jsMod (s.currentIndex + 1) (s.imagePaths.length : Int)) with
        animationScheduled := true }
    else { s with animationScheduled := true }

/-- The dwell threshold the loop compares against for the current
frame. -/
def dwellThreshold (fps : ℚ) (s : PlayerState) : ℚ :=
  if s.currentIndex = (s.imagePaths.length : Int) - 1
  then LAST_FRAME_HOLD_TIME_MS else FRAME_INTERVAL_MS fps

/-- One idealized tick: the animation callback fired exactly at the
instant at which the dwell threshold of the current frame elapses. -/
def tickAtThreshold (fps : ℚ) (s : PlayerState) : PlayerState :=
  runAnimationLoop fps s (s.lastFrameTime + dwellThreshold fps s)

/-- k successive idealized ticks. -/
def iterateTicks (fps : ℚ) : Nat → PlayerState → PlayerState
  | 0, s => s
  | k + 1, s => iterateTicks fps k (tickAtThreshold fps s)

/-- Append a cache entry for every path whose load succeeded (the onload
handlers run and populate imageCache even when a sibling load fails). -/
def cacheSuccesses (cache : List (String × CachedImage)) (paths : List String)
    (results : List (Option CachedImage)) : List (String × CachedImage) :=
  cache ++ (List.zip paths results).filterMap
    (fun pr => pr.2.map (fun img => (pr.1, img)))

/-- loadAllImages(), with the outcome of each concurrent image load
given by results (aligned with imagePaths; some img = onload with the
decoded image, none = onerror).  Promise.all resolves only when every
load succeeded; on full success the loading message is hidden, the
image and controls are revealed, the scrubber is bounded and revealed,
updateUI(0) runs, and isPlaying is forced false before togglePlayPause
starts the animation.  On any failure the catch branch only rewrites
the loading message text. -/
def loadAllImages (s : PlayerState) (results : List (Option CachedImage))
    (now : ℚ) : PlayerState :=
  if s.imagePaths.length = 0 then s
  else
    let s2 := { s with imageCache := cacheSuccesses s.imageCache s.imagePaths results }
    if results.all (fun r => r.isSome) = true then
      let s3 := { s2 with loadingVisible := false, imageVisible := true,
                          controlsVisible := true,
                          scrubberMax := (s.imagePaths.length : Int) - 1,
                          scrubberRevealed := true }
      let s4 := updateUI s3 0
      togglePlayPause { s4 with isPlaying := false } now
    else
      { s2 with loadingMessageText := "Error loading images. Please try refreshing." }

/-- The module state right after the let declarations run, before any
load completes.  The DOM-provided initial values (scrubber value and
bound, loading message text, displayed source placeholder) come from
the page markup, so they are parameters; the script itself contributes
empty paths and cache, currentIndex 0, isPlaying true, lastFrameTime 0
and no scheduled callback, with the loading presentation shown. -/
def initState (scrub0 scrubMax0 : Int) (msg0 : String) (src0 : Option String)
    (btn0 : String) : PlayerState :=
  { imagePaths := [], imageCache := [], currentIndex := 0, isPlaying := true,
    lastFrameTime := 0, animationScheduled := false, scrubberValue := scrub0,
    scrubberMax := scrubMax0, scrubberRevealed := false, displayedSrc := src0,
    loadingMessageText := msg0, loadingVisible := true, imageVisible := false,
    controlsVisible := false, playPauseBtnText := btn0 }

/-- The three-frame manifest of the concrete scenario in the design
notes. -/
def samplePaths : List String := ["a.png", "b.png", "c.png"]

/-- A fully populated cache for samplePaths. -/
def sampleCache : List (String × CachedImage) :=
  [("a.png", { src := "a.png", naturalWidth := 400, naturalHeight := 300 }),
   ("b.png", { src := "b.png", naturalWidth := 400, naturalHeight := 300 }),
   ("c.png", { src := "c.png", naturalWidth := 400, naturalHeight := 300 })]

/-- A concrete post-load player state (three frames, playing at index 0)
used to instantiate the playback theorems. -/
def samplePlayerState : PlayerState :=
  { imagePaths := samplePaths, imageCache := sampleCache, currentIndex := 0,
    isPlaying := true, lastFrameTime := 0, animationScheduled := true,
    scrubberValue := 0, scrubberMax := 2, scrubberRevealed := true,
    displayedSrc := some "a.png", loadingMessageText := "",
    loadingVisible := false, imageVisible := true, controlsVisible := true,
    playPauseBtnText := "■ Pause" }

/-- The same state with an empty image cache (every lookup misses). -/
def sampleNoCacheState : PlayerState := { samplePlayerState with imageCache := [] }

end Playback

namespace ClampZoom

/-- Tunables of src/unnamed/part_000. -/
def ZOOM_SCALE : ℚ := 2.1

/-- Control-box inset in pixels (CONTROL_INSET_PX). -/
def CONTROL_INSET_PX : ℚ := 80

/-- Whether mouse pointers may start the zoom gesture. -/
def ALLOW_MOUSE_INPUT : Bool := true

/-- Gesture state of the clamped-origin zoom variant: the isZooming
flag, the rect snapshot taken at pointer-down (imageRectCache), the
pointer id the container has captured, and the zoom-wrapper inline
styles (per-cent transform-origin pair and scale; none = cleared). -/
structure ZoomState where
  isZooming : Bool
  imageRectCache : Option Rect
  capturedPointerId : Option Int
  transformOrigin : Option (ℚ × ℚ)
  scale : Option ℚ
deriving DecidableEq, Repr

/-- The control-box width: max(1, rect.width - 2 * inset). -/
def controlBoxWidth (rect : Rect) : ℚ := max 1 (rect.width - 2 * CONTROL_INSET_PX)

/-- The control-box height: max(1, rect.height - 2 * inset). -/
def controlBoxHeight (rect : Rect) : ℚ := max 1 (rect.height - 2 * CONTROL_INSET_PX)

/-- The arithmetic core of applyZoom: pointer position relative to the
rect, clamped into the virtual control box, then mapped linearly to the
0-1 transform-origin fractions. -/
structure ZoomCalc where
  clampedX : ℚ
  clampedY : ℚ
  originX : ℚ
  originY : ℚ
deriving DecidableEq, Repr

/-- Steps 1-4 of applyZoom(event) in src/unnamed/part_000. -/
def applyZoomCalc (clientX clientY : ℚ) (rect : Rect) : ZoomCalc :=
  let x := clientX - rect.left
  let y := clientY - rect.top
  let inset := CONTROL_INSET_PX
  let clampedX := max inset (min x (rect.width - inset))
  let clampedY := max inset (min y (rect.height - inset))
  { clampedX := clampedX, clampedY := clampedY,
    originX := (clampedX - inset) / controlBoxWidth rect,
    originY := (clampedY - inset) / controlBoxHeight rect }

/-- applyZoom(event): a safety check returns early when no rect is
cached; otherwise compute the clamped origin from the cached rect and
write the transform-origin percentages and the scale. -/
def applyZoom (s : ZoomState) (e : PointerEvent) : ZoomState :=
  match s.imageRectCache with
  | none => s
  | some rect =>
    let c := applyZoomCalc e.clientX e.clientY rect
    { s with transformOrigin := some (c.originX * 100, c.originY * 100),
             scale := some ZOOM_SCALE }

/-- handlePointerDown(event): drop mouse input when disallowed, drop
non-primary pointers; otherwise set isZooming, snapshot the live image
rect into imageRectCache, capture the pointer and apply the zoom. -/
def handlePointerDown (s : ZoomState) (e : PointerEvent) : ZoomState :=
  if ALLOW_MOUSE_INPUT = false ∧ e.pointerType = "mouse" then s
  else if e.isPrimary = false then s
  else
    applyZoom { s with isZooming := true,
                       imageRectCache := some e.liveImageRect,
                       capturedPointerId := some e.pointerId } e

/-- handlePointerMove(event): ignored unless a gesture is active;
otherwise re-apply the zoom (from the cached rect, whatever the live
geometry now is). -/
def handlePointerMove (s : ZoomState) (e : PointerEvent) : ZoomState :=
  if s.isZooming = false then s else applyZoom s e

/-- handlePointerUp(event) (also the pointercancel handler): ignored
unless active; otherwise end the gesture, release capture, drop the
rect snapshot and clear the inline styles (resetZoom). -/
def handlePointerUp (s : ZoomState) (e : PointerEvent) : ZoomState :=
  if s.isZooming = false then s
  else { s with isZooming := false, capturedPointerId := none,
                imageRectCache := none, transformOrigin := none, scale := none }

/-- A concrete active clamped-zoom gesture: pointer 1 captured with a
100 by 100 rect snapshot. -/
def sampleActiveZoom : ZoomState :=
  { isZooming := true,
    imageRectCache := some { left := 0, top := 0, width := 100, height := 100 },
    capturedPointerId := some 1, transformOrigin := none, scale := none }

end ClampZoom

namespace Magnifier

/-- Magnifier configuration of src/docs/script.js. -/
def MAG_ZOOM : ℚ := 2.5

/-- Lens diameter in pixels. -/
def MAG_DIAMETER : ℚ := 180

/-- Lens radius. -/
def MAG_RADIUS : ℚ := MAG_DIAMETER / 2

/-- Pointer offset of the lens, x component. -/
def MAG_OFFSET_x : ℚ := 16

/-- Pointer offset of the lens, y component: -(MAG_RADIUS + 16). -/
def MAG_OFFSET_y : ℚ := -(MAG_RADIUS + 16)

/-- clamp(value, min, max) = Math.max(min, Math.min(max, value)). -/
def clamp (value lo hi : ℚ) : ℚ := max lo (min hi value)

/-- The style writes moveMagnifier performs: the lens background
position and the lens left/top. -/
structure MagMove where
  bgX : ℚ
  bgY : ℚ
  left : ℚ
  top : ℚ
deriving DecidableEq, Repr

/-- moveMagnifier(clientX, clientY) of src/docs/script.js.  imgRect and
containerRect are the live bounding rectangles measured inside the
function; nW and nH are the natural dimensions it resolves from the
cached image (the img naturalWidth-or-fallback chain), and the early
return on a zero dimension yields none. -/
def moveMagnifier (clientX clientY : ℚ) (imgRect containerRect : Rect)
    (nW nH : ℚ) : Option MagMove :=
  let xRelImg := clamp (clientX - imgRect.left) 0 imgRect.width
  let yRelImg := clamp (clientY - imgRect.top) 0 imgRect.height
  if nW = 0 ∨ nH = 0 then none
  else
    let scaleX := nW / imgRect.width
    let scaleY := nH / imgRect.height
    let nx := xRelImg * scaleX
    let ny := yRelImg * scaleY
    let bgX := -(nx * MAG_ZOOM - MAG_RADIUS)
    let bgY := -(ny * MAG_ZOOM - MAG_RADIUS)
    let centerX := (clientX - containerRect.left) + MAG_OFFSET_x
    let centerY := (clientY - containerRect.top) + MAG_OFFSET_y
    some { bgX := bgX, bgY := bgY,
           left := clamp (centerX - MAG_RADIUS) 0 (containerRect.width - MAG_DIAMETER),
           top := clamp (centerY - MAG_RADIUS) 0 (containerRect.height - MAG_DIAMETER) }

/-- Gesture state of the magnifier variant: the active flag, the
captured pointer id, lens visibility, and the lens style writes
recorded from the last moveMagnifier call. -/
structure MagState where
  magnifierActive : Bool
  activePointerId : Option Int
  magnifierVisible : Bool
  bgPos : Option (ℚ × ℚ)
  lensPos : Option (ℚ × ℚ)
deriving DecidableEq, Repr

/-- Apply the style writes of a moveMagnifier call to the state (the
early-return case writes nothing). -/
def applyMove (s : MagState) (e : PointerEvent) (nW nH : ℚ) : MagState :=
  match moveMagnifier e.clientX e.clientY e.liveImageRect e.liveContainerRect nW nH with
  | none => s
  | some r => { s with bgPos := some (r.bgX, r.bgY), lensPos := some (r.left, r.top) }

/-- showMagnifier(e): an early return while already active; otherwise
record the pointer id, set the active flag, capture the pointer, show
the lens and run moveMagnifier.  nW and nH are the natural dimensions
resolved from the current cached frame. -/
def showMagnifier (s : MagState) (e : PointerEvent) (nW nH : ℚ) : MagState :=
  if s.magnifierActive = true then s
  else
    applyMove { s with activePointerId := some e.pointerId,
                       magnifierActive := true, magnifierVisible := true } e nW nH

/-- The pointerdown listener: showMagnifier only for touch or pen
pointers (mouse is commented out in the source). -/
def onPointerDown (s : MagState) (e : PointerEvent) (nW nH : ℚ) : MagState :=
  if e.pointerType = "touch" ∨ e.pointerType = "pen" then showMagnifier s e nW nH
  else s

/-- updateMagnifier(e): ignored unless active with the captured id;
otherwise run moveMagnifier on the live coordinates and geometry. -/
def updateMagnifier (s : MagState) (e : PointerEvent) (nW nH : ℚ) : MagState :=
  if s.magnifierActive = false ∨ some e.pointerId ≠ s.activePointerId then s
  else applyMove s e nW nH

/-- hideMagnifier(e): ignored unless active with the captured id;
otherwise release capture, clear the id and flags and hide the lens. -/
def hideMagnifier (s : MagState) (e : PointerEvent) : MagState :=
  if s.magnifierActive = false ∨ some e.pointerId ≠ s.activePointerId then s
  else { s with activePointerId := none, magnifierActive := false,
                magnifierVisible := false }

/-- A concrete active magnifier gesture: pointer 1 captured. -/
def sampleActiveMag : MagState :=
  { magnifierActive := true, activePointerId := some 1,
    magnifierVisible := true, bgPos := none, lensPos := none }

/-- The idle magnifier state. -/
def sampleIdleMag : MagState :=
  { magnifierActive := false, activePointerId := none,
    magnifierVisible := false, bgPos := none, lensPos := none }

end Magnifier

namespace FixedZoom

/-- Zoom factor of the second script in src/unnamed/part_001. -/
def ZOOM_SCALE : ℚ := 2.0

/-- Gesture state of the fixed-point zoom variant: the active flag, the
captured pointer id, and the image inline styles (transform-origin in
element-local pixels; scale). -/
structure Zoom2State where
  zoomActive : Bool
  zoomPointerId : Option Int
  transformOrigin : Option (ℚ × ℚ)
  scale : Option ℚ
deriving DecidableEq, Repr

/-- applyZoomAt(e): measure the image rect FRESH
(getBoundingClientRect at event time), set the pivot to the pointer
position relative to that rect, and scale. -/
def applyZoomAt (s : Zoom2State) (e : PointerEvent) : Zoom2State :=
  let rect := e.liveImageRect
  { s with transformOrigin := some (e.clientX - rect.left, e.clientY - rect.top),
           scale := some ZOOM_SCALE }

/-- startZoom(e): an early return while already active; otherwise set
the active flag, record and capture the pointer id, and apply the
zoom. -/
def startZoom (s : Zoom2State) (e : PointerEvent) : Zoom2State :=
  if s.zoomActive = true then s
  else applyZoomAt { s with zoomActive := true, zoomPointerId := some e.pointerId } e

/-- The pointerdown listener: startZoom only for touch or pen
pointers. -/
def onPointerDown (s : Zoom2State) (e : PointerEvent) : Zoom2State :=
  if e.pointerType = "touch" ∨ e.pointerType = "pen" then startZoom s e
  else s

/-- moveZoom(e): ignored unless active with the captured id; otherwise
re-apply the zoom at the live pointer position and geometry. -/
def moveZoom (s : Zoom2State) (e : PointerEvent) : Zoom2State :=
  if s.zoomActive = false ∨ some e.pointerId ≠ s.zoomPointerId then s
  else applyZoomAt s e

/-- endZoom(e): ignored unless active with the captured id; otherwise
release capture, clear the gesture state and reset the transform to
scale(1) with the default origin. -/
def endZoom (s : Zoom2State) (e : PointerEvent) : Zoom2State :=
  if s.zoomActive = false ∨ some e.pointerId ≠ s.zoomPointerId then s
  else { s with zoomActive := false, zoomPointerId := none,
                transformOrigin := none, scale := some 1 }

/-- A concrete active fixed-point zoom gesture: pointer 1 captured. -/
def sampleActive : Zoom2State :=
  { zoomActive := true, zoomPointerId := some 1,
    transformOrigin := none, scale := none }

end FixedZoom

/-- A concrete touch event: pointer 1 at viewport (10, 10) over a
100 by 100 image at the viewport origin. -/
def sampleEventA : PointerEvent :=
  { pointerId := 1, pointerType := "touch", isPrimary := true,
    clientX := 10, clientY := 10,
    liveImageRect := { left := 0, top := 0, width := 100, height := 100 },
    liveContainerRect := { left := 0, top := 0, width := 300, height := 200 } }

/-- The same pointer and position after a layout shift moved the image
5 px to the right: only the live geometry differs from sampleEventA. -/
def sampleEventB : PointerEvent :=
  { sampleEventA with
    liveImageRect := { left := 5, top := 0, width := 100, height := 100 } }

/-- A pointer-down from a second, different pointer (id 2) while the
live geometry has changed to a 50 by 50 rect. -/
def sampleEventOther : PointerEvent :=
  { sampleEventA with
    pointerId := 2,
    liveImageRect := { left := 0, top := 0, width := 50, height := 50 } }

end CloudViews

namespace CloudViews

open Playback

/-- displayFrame changes at most the displayed source. -/
theorem displayFrame_spec (s : PlayerState) (i : Int) :
    ∃ d, displayFrame s i = { s with displayedSrc := d } := by
  rcases hg : jsArrayGet s.imagePaths i with _ | path
  · exact ⟨s.displayedSrc, by simp [displayFrame, hg]⟩
  · rcases hc : cacheLookup s.imageCache path with _ | img
    · exact ⟨s.displayedSrc, by simp [displayFrame, hg, hc]⟩
    · exact ⟨some img.src, by simp [displayFrame, hg, hc]⟩

/-- updateUI sets currentIndex and the scrubber value to the given index
and changes at most the displayed source besides. -/
theorem updateUI_spec (s : PlayerState) (i : Int) :
    ∃ d, updateUI s i =
      { s with currentIndex := i, scrubberValue := i, displayedSrc := d } := by
  obtain ⟨d, hd⟩ := displayFrame_spec { s with currentIndex := i, scrubberValue := i } i
  exact ⟨d, hd⟩

/-- Closed form of a playing tick that meets the dwell threshold. -/
theorem runAnimationLoop_advance (fps : ℚ) (s : PlayerState) (t : ℚ)
    (hp : s.isPlaying = true)
    (hth : dwellThreshold fps s ≤ t - s.lastFrameTime) :
    ∃ d, runAnimationLoop fps s t =
      { s with currentIndex := jsMod (s.currentIndex + 1) (s.imagePaths.length : Int),
               scrubberValue := jsMod (s.currentIndex + 1) (s.imagePaths.length : Int),
               lastFrameTime := t, displayedSrc := d, animationScheduled := true } := by
  obtain ⟨d, hd⟩ := updateUI_spec { s with lastFrameTime := t }
    (jsMod (s.currentIndex + 1) (s.imagePaths.length : Int))
  refine ⟨d, ?_⟩
  have hth' : (if s.currentIndex = (s.imagePaths.length : Int) - 1
      then LAST_FRAME_HOLD_TIME_MS else FRAME_INTERVAL_MS fps) ≤ t - s.lastFrameTime := hth
  simp only [runAnimationLoop]
  rw [if_neg (by simp [hp]), if_pos hth', hd]

/-- Closed form of a playing tick that misses the dwell threshold. -/
theorem runAnimationLoop_noadvance (fps : ℚ) (s : PlayerState) (t : ℚ)
    (hp : s.isPlaying = true)
    (hth : ¬ dwellThreshold fps s ≤ t - s.lastFrameTime) :
    runAnimationLoop fps s t = { s with animationScheduled := true } := by
  have hth' : ¬ (if s.currentIndex = (s.imagePaths.length : Int) - 1
      then LAST_FRAME_HOLD_TIME_MS else FRAME_INTERVAL_MS fps) ≤ t - s.lastFrameTime := hth
  simp only [runAnimationLoop]
  rw [if_neg (by simp [hp]), if_neg hth']

/-- The JS remainder leaves a value already inside the range alone. -/
theorem jsMod_eq_self {a b : Int} (h0 : 0 ≤ a) (hb : a < b) : jsMod a b = a :=
  Int.tmod_eq_of_lt h0 hb

/-- The JS remainder of the modulus by itself is zero. -/
theorem jsMod_self (b : Int) : jsMod b b = 0 := Int.tmod_self

/-- Closed form of one idealized tick of a playing state: the index
advances by one modulo N and lastFrameTime moves by exactly the dwell
threshold of the frame that was current. -/
theorem tickAtThreshold_spec (fps : ℚ) (s : PlayerState) (hp : s.isPlaying = true) :
    ∃ d, tickAtThreshold fps s =
      { s with currentIndex := jsMod (s.currentIndex + 1) (s.imagePaths.length : Int),
               scrubberValue := jsMod (s.currentIndex + 1) (s.imagePaths.length : Int),
               lastFrameTime := s.lastFrameTime + dwellThreshold fps s,
               displayedSrc := d, animationScheduled := true } := by
  have hth : dwellThreshold fps s
      ≤ s.lastFrameTime + dwellThreshold fps s - s.lastFrameTime := by
    rw [add_sub_cancel_left]
  obtain ⟨d, hd⟩ := runAnimationLoop_advance fps s
    (s.lastFrameTime + dwellThreshold fps s) hp hth
  exact ⟨d, hd⟩

/-- Unfolding lemma: zero ticks. -/
theorem iterateTicks_zero (fps : ℚ) (s : PlayerState) :
    iterateTicks fps 0 s = s := rfl

/-- Unfolding lemma: one more tick runs first. -/
theorem iterateTicks_succ (fps : ℚ) (k : Nat) (s : PlayerState) :
    iterateTicks fps (k + 1) s = iterateTicks fps k (tickAtThreshold fps s) := rfl

/-- A single idealized tick. -/
theorem iterateTicks_one (fps : ℚ) (s : PlayerState) :
    iterateTicks fps 1 s = tickAtThreshold fps s := rfl

/-- Splitting a tick count. -/
theorem iterateTicks_add (fps : ℚ) (a b : Nat) :
    ∀ s : PlayerState,
      iterateTicks fps (a + b) s = iterateTicks fps b (iterateTicks fps a s) := by
  induction a with
  | zero =>
    intro s
    rw [Nat.zero_add, iterateTicks_zero]
  | succ n ih =>
    intro s
    rw [show n + 1 + b = (n + b) + 1 by omega, iterateTicks_succ, ih, iterateTicks_succ]

/-- Ticking commutes with iterated ticking. -/
theorem iterateTicks_tick_comm (fps : ℚ) (k : Nat) :
    ∀ s : PlayerState,
      iterateTicks fps k (tickAtThreshold fps s)
        = tickAtThreshold fps (iterateTicks fps k s) := by
  induction k with
  | zero => intro s; rw [iterateTicks_zero, iterateTicks_zero]
  | succ n ih =>
    intro s
    rw [iterateTicks_succ, ih, iterateTicks_succ]

/-- Running k idealized ticks while staying strictly below the last
index advances the index by k and the clock by k frame intervals. -/
theorem iterateTicks_below (fps : ℚ) (k : Nat) :
    ∀ s : PlayerState, s.isPlaying = true → 0 ≤ s.currentIndex →
    s.currentIndex + k ≤ (s.imagePaths.length : Int) - 1 →
    (iterateTicks fps k s).currentIndex = s.currentIndex + k ∧
    (iterateTicks fps k s).lastFrameTime
      = s.lastFrameTime + k * FRAME_INTERVAL_MS fps ∧
    (iterateTicks fps k s).isPlaying = true ∧
    (iterateTicks fps k s).imagePaths = s.imagePaths := by
  induction k with
  | zero =>
    intro s hp h0 hk
    rw [iterateTicks_zero]
    exact ⟨by simp, by simp, hp, rfl⟩
  | succ n ih =>
    intro s hp h0 hk
    obtain ⟨d, hd⟩ := tickAtThreshold_spec fps s hp
    have hstep : s.currentIndex + 1 < (s.imagePaths.length : Int) := by
      push_cast at hk
      omega
    have hmod : jsMod (s.currentIndex + 1) (s.imagePaths.length : Int)
        = s.currentIndex + 1 := jsMod_eq_self (by omega) hstep
    have hlastidx : s.currentIndex ≠ (s.imagePaths.length : Int) - 1 := by
      push_cast at hk
      omega
    have hdw : dwellThreshold fps s = FRAME_INTERVAL_MS fps := by
      unfold dwellThreshold
      rw [if_neg hlastidx]
    have hti : (tickAtThreshold fps s).currentIndex = s.currentIndex + 1 := by
      rw [hd]
      exact hmod
    have htl : (tickAtThreshold fps s).lastFrameTime
        = s.lastFrameTime + FRAME_INTERVAL_MS fps := by
      rw [hd]
      show s.lastFrameTime + dwellThreshold fps s = _
      rw [hdw]
    have htp : (tickAtThreshold fps s).isPlaying = true := by
      rw [hd]
      exact hp
    have htpaths : (tickAtThreshold fps s).imagePaths = s.imagePaths := by
      rw [hd]
    have h1 := ih (tickAtThreshold fps s) htp (by rw [hti]; omega)
      (by
        rw [hti, htpaths]
        push_cast at hk ⊢
        omega)
    refine ⟨?_, ?_, ?_, ?_⟩
    · rw [iterateTicks_succ, h1.1, hti]
      push_cast
      ring
    · rw [iterateTicks_succ, h1.2.1, htl]
      push_cast
      ring
    · rw [iterateTicks_succ]
      exact h1.2.2.1
    · rw [iterateTicks_succ, h1.2.2.2, htpaths]

/-- Idealized ticking preserves the playing flag, the frame list, and
keeps the index inside the valid range. -/
theorem iterateTicks_inv (fps : ℚ) (k : Nat) :
    ∀ s : PlayerState, s.isPlaying = true → 0 ≤ s.currentIndex →
    s.currentIndex < (s.imagePaths.length : Int) →
    (iterateTicks fps k s).isPlaying = true ∧
    (iterateTicks fps k s).imagePaths = s.imagePaths ∧
    0 ≤ (iterateTicks fps k s).currentIndex ∧
    (iterateTicks fps k s).currentIndex < (s.imagePaths.length : Int) := by
  induction k with
  | zero =>
    intro s hp h0 hN
    rw [iterateTicks_zero]
    exact ⟨hp, rfl, h0, hN⟩
  | succ n ih =>
    intro s hp h0 hN
    obtain ⟨d, hd⟩ := tickAtThreshold_spec fps s hp
    have hpos : (0 : Int) < (s.imagePaths.length : Int) := by omega
    have hti : (tickAtThreshold fps s).currentIndex
        = jsMod (s.currentIndex + 1) (s.imagePaths.length : Int) := by rw [hd]
    have htp : (tickAtThreshold fps s).isPlaying = true := by rw [hd]; exact hp
    have htpaths : (tickAtThreshold fps s).imagePaths = s.imagePaths := by rw [hd]
    have h0' : 0 ≤ (tickAtThreshold fps s).currentIndex := by
      rw [hti]
      exact Int.tmod_nonneg _ (by omega)
    have hN' : (tickAtThreshold fps s).currentIndex
        < ((tickAtThreshold fps s).imagePaths.length : Int) := by
      rw [hti, htpaths]
      exact Int.tmod_lt_of_pos _ hpos
    have h1 := ih (tickAtThreshold fps s) htp h0' hN'
    refine ⟨?_, ?_, ?_, ?_⟩
    · rw [iterateTicks_succ]
      exact h1.1
    · rw [iterateTicks_succ, h1.2.1, htpaths]
    · rw [iterateTicks_succ]
      exact h1.2.2.1
    · rw [iterateTicks_succ, ← htpaths]
      exact h1.2.2.2

/-- Claim C1: while Playing, a tick advances currentIndex by one modulo
N exactly when the elapsed time reaches the dwell threshold of the
current frame (the 1000 ms hold on the last index, 1000/FPS ms
otherwise); ticking at exactly those instants advances the index by one
per tick, and N such ticks return the index to its starting value after
precisely (N-1) * FRAME_INTERVAL_MS + LAST_FRAME_HOLD_TIME_MS of
simulated time. -/
theorem claim_C1_tick_and_loop_closure (fps : ℚ) (s : PlayerState)
    (hp : s.isPlaying = true) (h0 : 0 ≤ s.currentIndex)
    (hN : s.currentIndex < (s.imagePaths.length : Int)) :
    (∀ t : ℚ, (runAnimationLoop fps s t).currentIndex =
      if dwellThreshold fps s ≤ t - s.lastFrameTime
      then jsMod (s.currentIndex + 1) (s.imagePaths.length : Int)
      else s.currentIndex) ∧
    (∀ k : Nat, (iterateTicks fps (k + 1) s).currentIndex
      = jsMod ((iterateTicks fps k s).currentIndex + 1) (s.imagePaths.length : Int)) ∧
    (iterateTicks fps s.imagePaths.length s).currentIndex = s.currentIndex ∧
    (iterateTicks fps s.imagePaths.length s).lastFrameTime
      = s.lastFrameTime
        + ((s.imagePaths.length : ℚ) - 1) * FRAME_INTERVAL_MS fps
        + LAST_FRAME_HOLD_TIME_MS := by
  have hlen : 0 < s.imagePaths.length := by omega
  refine ⟨?_, ?_⟩
  · intro t
    by_cases hth : dwellThreshold fps s ≤ t - s.lastFrameTime
    · obtain ⟨d, hd⟩ := runAnimationLoop_advance fps s t hp hth
      rw [hd, if_pos hth]
    · rw [runAnimationLoop_noadvance fps s t hp hth, if_neg hth]
  have hstep : ∀ k : Nat, (iterateTicks fps (k + 1) s).currentIndex
      = jsMod ((iterateTicks fps k s).currentIndex + 1) (s.imagePaths.length : Int) := by
    intro k
    have hinv := iterateTicks_inv fps k s hp h0 hN
    obtain ⟨d, hd⟩ := tickAtThreshold_spec fps (iterateTicks fps k s) hinv.1
    have hcomm : iterateTicks fps (k + 1) s
        = tickAtThreshold fps (iterateTicks fps k s) := iterateTicks_tick_comm fps k s
    rw [hcomm, hd]
    show jsMod ((iterateTicks fps k s).currentIndex + 1)
        ((iterateTicks fps k s).imagePaths.length : Int) = _
    rw [hinv.2.1]
  refine ⟨hstep, ?_, ?_⟩
  all_goals {
    have hji : (s.currentIndex.toNat : Int) = s.currentIndex := Int.toNat_of_nonneg h0
    have hS1 := iterateTicks_below fps (s.imagePaths.length - 1 - s.currentIndex.toNat) s
      hp h0 (by omega)
    have hs1i : (iterateTicks fps (s.imagePaths.length - 1 - s.currentIndex.toNat) s).currentIndex
        = (s.imagePaths.length : Int) - 1 := by
      rw [hS1.1]
      omega
    obtain ⟨d2, hd2⟩ := tickAtThreshold_spec fps
      (iterateTicks fps (s.imagePaths.length - 1 - s.currentIndex.toNat) s) hS1.2.2.1
    have hs1dw : dwellThreshold fps
        (iterateTicks fps (s.imagePaths.length - 1 - s.currentIndex.toNat) s)
        = LAST_FRAME_HOLD_TIME_MS := by
      unfold dwellThreshold
      rw [if_pos (by rw [hS1.2.2.2]; exact hs1i)]
    have hs2i : (tickAtThreshold fps
        (iterateTicks fps (s.imagePaths.length - 1 - s.currentIndex.toNat) s)).currentIndex
        = 0 := by
      rw [hd2]
      show jsMod ((iterateTicks fps (s.imagePaths.length - 1 - s.currentIndex.toNat) s).currentIndex + 1)
        ((iterateTicks fps (s.imagePaths.length - 1 - s.currentIndex.toNat) s).imagePaths.length : Int) = 0
      rw [hS1.2.2.2, hs1i, show (s.imagePaths.length : Int) - 1 + 1 = (s.imagePaths.length : Int) by ring,
        jsMod_self]
    have hs2p : (tickAtThreshold fps
        (iterateTicks fps (s.imagePaths.length - 1 - s.currentIndex.toNat) s)).isPlaying
        = true := by
      rw [hd2]
      exact hS1.2.2.1
    have hs2paths : (tickAtThreshold fps
        (iterateTicks fps (s.imagePaths.length - 1 - s.currentIndex.toNat) s)).imagePaths
        = s.imagePaths := by
      rw [hd2]
      exact hS1.2.2.2
    have hs2last : (tickAtThreshold fps
        (iterateTicks fps (s.imagePaths.length - 1 - s.currentIndex.toNat) s)).lastFrameTime
        = s.lastFrameTime
          + ((s.imagePaths.length - 1 - s.currentIndex.toNat : Nat) : ℚ) * FRAME_INTERVAL_MS fps
          + LAST_FRAME_HOLD_TIME_MS := by
      rw [hd2]
      show (iterateTicks fps (s.imagePaths.length - 1 - s.currentIndex.toNat) s).lastFrameTime
          + dwellThreshold fps (iterateTicks fps (s.imagePaths.length - 1 - s.currentIndex.toNat) s)
          = _
      rw [hS1.2.1, hs1dw]
    have hS3 := iterateTicks_below fps s.currentIndex.toNat
      (tickAtThreshold fps (iterateTicks fps (s.imagePaths.length - 1 - s.currentIndex.toNat) s))
      hs2p (by rw [hs2i]) (by rw [hs2i, hs2paths]; omega)
    have hcomp : iterateTicks fps s.imagePaths.length s
        = iterateTicks fps s.currentIndex.toNat (tickAtThreshold fps
            (iterateTicks fps (s.imagePaths.length - 1 - s.currentIndex.toNat) s)) := by
      conv_lhs => rw [show s.imagePaths.length
          = (s.imagePaths.length - 1 - s.currentIndex.toNat) + (1 + s.currentIndex.toNat)
          by omega]
      rw [iterateTicks_add, iterateTicks_add, iterateTicks_one]
    have hcastk1 : ((s.imagePaths.length - 1 - s.currentIndex.toNat : Nat) : ℚ)
        = (s.imagePaths.length : ℚ) - 1 - (s.currentIndex.toNat : ℚ) := by
      rw [Nat.cast_sub (by omega), Nat.cast_sub (by omega)]
      push_cast
      ring
    first
    | (rw [hcomp, hS3.1, hs2i]
       omega)
    | (rw [hcomp, hS3.2.1, hs2last, hcastk1]
       ring)
  }

/-- Witness for C1: the concrete three-frame scenario at FPS 5 — three
idealized ticks starting from index 0 take 200 + 200 + 1000 ms of
simulated time and return the index to 0. -/
theorem claim_C1_witness :
    (iterateTicks 5 samplePlayerState.imagePaths.length samplePlayerState).currentIndex
      = samplePlayerState.currentIndex ∧
    (iterateTicks 5 samplePlayerState.imagePaths.length samplePlayerState).lastFrameTime
      = samplePlayerState.lastFrameTime
        + ((samplePlayerState.imagePaths.length : ℚ) - 1) * FRAME_INTERVAL_MS 5
        + LAST_FRAME_HOLD_TIME_MS :=
  have h := claim_C1_tick_and_loop_closure 5 samplePlayerState (by decide) (by decide)
    (by decide)
  ⟨h.2.2.1, h.2.2.2⟩

/-- Closed form of loadAllImages when every image load succeeds. -/
theorem loadAllImages_success_spec (s : PlayerState)
    (results : List (Option CachedImage)) (now : ℚ)
    (hne : s.imagePaths.length ≠ 0)
    (hall : results.all (fun r => r.isSome) = true) :
    ∃ d, loadAllImages s results now =
      { s with imageCache := cacheSuccesses s.imageCache s.imagePaths results,
               loadingVisible := false, imageVisible := true, controlsVisible := true,
               scrubberMax := (s.imagePaths.length : Int) - 1, scrubberRevealed := true,
               currentIndex := 0, scrubberValue := 0, displayedSrc := d,
               isPlaying := true, playPauseBtnText := "■ Pause",
               lastFrameTime := now, animationScheduled := true } := by
  obtain ⟨d, hd⟩ := updateUI_spec
    { s with imageCache := cacheSuccesses s.imageCache s.imagePaths results,
             loadingVisible := false, imageVisible := true, controlsVisible := true,
             scrubberMax := (s.imagePaths.length : Int) - 1, scrubberRevealed := true } 0
  refine ⟨d, ?_⟩
  simp only [loadAllImages]
  rw [if_neg hne, if_pos hall, hd]
  simp only [togglePlayPause, startAnimation]
  rw [if_neg (by simp), if_pos (by simpa using Nat.pos_of_ne_zero hne), if_neg (by simp)]

/-- Closed form of loadAllImages when some image load fails: only the
cache gains the successful entries and the loading message is rewritten
to the error text. -/
theorem loadAllImages_failure_spec (s : PlayerState)
    (results : List (Option CachedImage)) (now : ℚ)
    (hlen : results.length = s.imagePaths.length)
    (hfail : results.all (fun r => r.isSome) = false) :
    loadAllImages s results now =
      { s with imageCache := cacheSuccesses s.imageCache s.imagePaths results,
               loadingMessageText := "Error loading images. Please try refreshing." } := by
  have hne : s.imagePaths.length ≠ 0 := by
    intro h0
    rw [← hlen] at h0
    have hnil : results = [] := List.length_eq_zero.mp h0
    rw [hnil] at hfail
    simp at hfail
  simp only [loadAllImages]
  rw [if_neg hne, if_neg (by simp [hfail])]

/-- Claim C2: the scrubber value equals currentIndex after every
state-mutating operation: successful load completion, stepPrev,
stepNext, seek through the scrubber, and every animation tick. -/
theorem claim_C2_scrubber_equals_currentIndex :
    (∀ (s : PlayerState) (results : List (Option CachedImage)) (now : ℚ),
      s.imagePaths.length ≠ 0 → results.all (fun r => r.isSome) = true →
      (loadAllImages s results now).scrubberValue
        = (loadAllImages s results now).currentIndex) ∧
    (∀ s : PlayerState,
      (prevFrame s).scrubberValue = (prevFrame s).currentIndex) ∧
    (∀ s : PlayerState,
      (nextFrame s).scrubberValue = (nextFrame s).currentIndex) ∧
    (∀ s : PlayerState,
      (handleScrubberInput s).scrubberValue = (handleScrubberInput s).currentIndex) ∧
    (∀ (fps : ℚ) (s : PlayerState) (t : ℚ), s.scrubberValue = s.currentIndex →
      (runAnimationLoop fps s t).scrubberValue = (runAnimationLoop fps s t).currentIndex) := by
  refine ⟨?_, ?_, ?_, ?_, ?_⟩
  · intro s results now hne hall
    obtain ⟨d, hd⟩ := loadAllImages_success_spec s results now hne hall
    rw [hd]
  · intro s
    obtain ⟨d, hd⟩ := updateUI_spec (stopAnimation s)
      (jsMod ((stopAnimation s).currentIndex - 1 + ((stopAnimation s).imagePaths.length : Int))
        ((stopAnimation s).imagePaths.length : Int))
    simp only [prevFrame]
    rw [hd]
  · intro s
    obtain ⟨d, hd⟩ := updateUI_spec (stopAnimation s)
      (jsMod ((stopAnimation s).currentIndex + 1) ((stopAnimation s).imagePaths.length : Int))
    simp only [nextFrame]
    rw [hd]
  · intro s
    obtain ⟨d, hd⟩ := updateUI_spec (stopAnimation s) (stopAnimation s).scrubberValue
    simp only [handleScrubberInput]
    rw [hd]
  · intro fps s t hinv
    by_cases hp : s.isPlaying = true
    · by_cases hth : dwellThreshold fps s ≤ t - s.lastFrameTime
      · obtain ⟨d, hd⟩ := runAnimationLoop_advance fps s t hp hth
        rw [hd]
      · rw [runAnimationLoop_noadvance fps s t hp hth]
        exact hinv
    · have hp' : s.isPlaying = false := by
        revert hp
        cases s.isPlaying <;> simp
      simp only [runAnimationLoop]
      rw [if_pos hp']
      exact hinv

/-- Witness for C2: all five operations on the concrete sample state,
with a successful two-result load on a matching two-frame state. -/
theorem claim_C2_witness :
    ((loadAllImages sampleNoCacheState
        [some { src := "a.png", naturalWidth := 1, naturalHeight := 1 },
         some { src := "b.png", naturalWidth := 1, naturalHeight := 1 },
         some { src := "c.png", naturalWidth := 1, naturalHeight := 1 }] 0).scrubberValue
      = (loadAllImages sampleNoCacheState
        [some { src := "a.png", naturalWidth := 1, naturalHeight := 1 },
         some { src := "b.png", naturalWidth := 1, naturalHeight := 1 },
         some { src := "c.png", naturalWidth := 1, naturalHeight := 1 }] 0).currentIndex) ∧
    ((prevFrame samplePlayerState).scrubberValue
      = (prevFrame samplePlayerState).currentIndex) ∧
    ((nextFrame samplePlayerState).scrubberValue
      = (nextFrame samplePlayerState).currentIndex) ∧
    ((handleScrubberInput samplePlayerState).scrubberValue
      = (handleScrubberInput samplePlayerState).currentIndex) ∧
    ((runAnimationLoop 5 samplePlayerState 200).scrubberValue
      = (runAnimationLoop 5 samplePlayerState 200).currentIndex) :=
  ⟨claim_C2_scrubber_equals_currentIndex.1 sampleNoCacheState _ 0 (by decide) (by decide),
   claim_C2_scrubber_equals_currentIndex.2.1 samplePlayerState,
   claim_C2_scrubber_equals_currentIndex.2.2.1 samplePlayerState,
   claim_C2_scrubber_equals_currentIndex.2.2.2.1 samplePlayerState,
   claim_C2_scrubber_equals_currentIndex.2.2.2.2 5 samplePlayerState 200 (by decide)⟩

/-- Claim C4 counterexample: the state machine does NOT start with
isPlaying false: the scripts declare the isPlaying module variable as
true before any load completes. -/
theorem claim_C4_counterexample :
    ¬ ((initState 0 0 "Loading images..." none "▶ Play").isPlaying = false) := by
  decide

/-- Claim C4, amended: before load completes the isPlaying flag of the
engine starts out TRUE, but no animation callback is scheduled, so
the engine is not driving; the tick callback is scheduled only when the
Loader reports full success, at which point the loader forces isPlaying
to false and toggles, leaving the engine Playing with a scheduled tick;
a failed load never schedules a tick and never changes isPlaying. -/
theorem claim_C4_amended_initial_state :
    (∀ (scrub0 scrubMax0 : Int) (msg0 : String) (src0 : Option String) (btn0 : String),
      (initState scrub0 scrubMax0 msg0 src0 btn0).isPlaying = true ∧
      (initState scrub0 scrubMax0 msg0 src0 btn0).animationScheduled = false) ∧
    (∀ (s : PlayerState) (results : List (Option CachedImage)) (now : ℚ),
      s.imagePaths.length ≠ 0 → results.all (fun r => r.isSome) = true →
      (loadAllImages s results now).isPlaying = true ∧
      (loadAllImages s results now).animationScheduled = true ∧
      (loadAllImages s results now).lastFrameTime = now) ∧
    (∀ (s : PlayerState) (results : List (Option CachedImage)) (now : ℚ),
      results.all (fun r => r.isSome) = false →
      (loadAllImages s results now).isPlaying = s.isPlaying ∧
      (loadAllImages s results now).animationScheduled = s.animationScheduled) := by
  refine ⟨?_, ?_, ?_⟩
  · intro scrub0 scrubMax0 msg0 src0 btn0
    exact ⟨rfl, rfl⟩
  · intro s results now hne hall
    obtain ⟨d, hd⟩ := loadAllImages_success_spec s results now hne hall
    rw [hd]
    exact ⟨rfl, rfl, rfl⟩
  · intro s results now hfail
    by_cases hne : s.imagePaths.length = 0
    · simp only [loadAllImages]
      rw [if_pos hne]
      exact ⟨rfl, rfl⟩
    · simp only [loadAllImages]
      rw [if_neg hne, if_neg (by simp [hfail])]
      exact ⟨rfl, rfl⟩

/-- Witness for C4 amended: a concrete initial state, a fully
successful load and a failing load. -/
theorem claim_C4_amended_witness :
    ((initState 0 0 "Loading images..." none "▶ Play").isPlaying = true ∧
     (initState 0 0 "Loading images..." none "▶ Play").animationScheduled = false) ∧
    ((loadAllImages sampleNoCacheState
        [some { src := "a.png", naturalWidth := 1, naturalHeight := 1 },
         some { src := "b.png", naturalWidth := 1, naturalHeight := 1 },
         some { src := "c.png", naturalWidth := 1, naturalHeight := 1 }] 7).isPlaying = true) ∧
    ((loadAllImages sampleNoCacheState [none, none, none] 7).animationScheduled
      = sampleNoCacheState.animationScheduled) :=
  ⟨claim_C4_amended_initial_state.1 0 0 "Loading images..." none "▶ Play",
   (claim_C4_amended_initial_state.2.1 sampleNoCacheState _ 7 (by decide) (by decide)).1,
   (claim_C4_amended_initial_state.2.2 sampleNoCacheState [none, none, none] 7 (by decide)).2⟩

/-- Claim C5: if any single image load fails, the load is a terminal
failure: the displayed source never changes (no partial frame set is
shown), the loading presentation stays as it was with the error
message, the scrubber is never revealed or bounded, and playback never
starts (no tick is scheduled, no playback field changes). -/
theorem claim_C5_load_failure_terminal :
    ∀ (s : PlayerState) (results : List (Option CachedImage)) (now : ℚ),
      results.length = s.imagePaths.length →
      results.all (fun r => r.isSome) = false →
      (loadAllImages s results now).loadingMessageText
        = "Error loading images. Please try refreshing." ∧
      (loadAllImages s results now).loadingVisible = s.loadingVisible ∧
      (loadAllImages s results now).imageVisible = s.imageVisible ∧
      (loadAllImages s results now).controlsVisible = s.controlsVisible ∧
      (loadAllImages s results now).scrubberRevealed = s.scrubberRevealed ∧
      (loadAllImages s results now).scrubberMax = s.scrubberMax ∧
      (loadAllImages s results now).animationScheduled = s.animationScheduled ∧
      (loadAllImages s results now).isPlaying = s.isPlaying ∧
      (loadAllImages s results now).displayedSrc = s.displayedSrc ∧
      (loadAllImages s results now).currentIndex = s.currentIndex ∧
      (loadAllImages s results now).scrubberValue = s.scrubberValue := by
  intro s results now hlen hfail
  rw [loadAllImages_failure_spec s results now hlen hfail]
  exact ⟨rfl, rfl, rfl, rfl, rfl, rfl, rfl, rfl, rfl, rfl, rfl⟩

/-- Witness for C5: a three-frame load where the second image errors
leaves the pre-load presentation intact apart from the error text. -/
theorem claim_C5_witness :
    (loadAllImages sampleNoCacheState
        [some { src := "a.png", naturalWidth := 1, naturalHeight := 1 }, none,
         some { src := "c.png", naturalWidth := 1, naturalHeight := 1 }] 3).loadingMessageText
      = "Error loading images. Please try refreshing." ∧
    (loadAllImages sampleNoCacheState
        [some { src := "a.png", naturalWidth := 1, naturalHeight := 1 }, none,
         some { src := "c.png", naturalWidth := 1, naturalHeight := 1 }] 3).scrubberRevealed
      = sampleNoCacheState.scrubberRevealed ∧
    (loadAllImages sampleNoCacheState
        [some { src := "a.png", naturalWidth := 1, naturalHeight := 1 }, none,
         some { src := "c.png", naturalWidth := 1, naturalHeight := 1 }] 3).displayedSrc
      = sampleNoCacheState.displayedSrc :=
  have h := claim_C5_load_failure_terminal sampleNoCacheState
    [some { src := "a.png", naturalWidth := 1, naturalHeight := 1 }, none,
     some { src := "c.png", naturalWidth := 1, naturalHeight := 1 }] 3 (by decide) (by decide)
  ⟨h.1, h.2.2.2.2.1, h.2.2.2.2.2.2.2.2.1⟩

/-- Claim C9: for every index whose frame identifier has no cache entry,
including every index outside the valid range, displayFrame leaves the
state (in particular the displayed image source) unchanged and is a
total function, raising no error. -/
theorem claim_C9_displayFrame_defensive :
    (∀ (s : PlayerState) (i : Int),
      (jsArrayGet s.imagePaths i).bind (cacheLookup s.imageCache) = none →
      displayFrame s i = s) ∧
    (∀ (s : PlayerState) (i : Int),
      i < 0 ∨ (s.imagePaths.length : Int) ≤ i →
      displayFrame s i = s) := by
  have main : ∀ (s : PlayerState) (i : Int),
      (jsArrayGet s.imagePaths i).bind (cacheLookup s.imageCache) = none →
      displayFrame s i = s := by
    intro s i h
    unfold displayFrame
    cases hg : jsArrayGet s.imagePaths i with
    | none => rfl
    | some path =>
      have hc : cacheLookup s.imageCache path = none := by
        rw [hg] at h
        simpa using h
      simp [hc]
  refine ⟨main, ?_⟩
  intro s i h
  apply main
  have hg : jsArrayGet s.imagePaths i = none := by
    unfold jsArrayGet
    rcases h with h | h
    · rw [if_neg (by omega)]
    · rw [if_pos (by omega)]
      apply List.get?_eq_none.mpr
      omega
  rw [hg]
  rfl

/-- The clamped origin fraction always stays within the unit
interval. -/
theorem clampFrac_bounds (x w inset : ℚ) :
    0 ≤ (max inset (min x (w - inset)) - inset) / max 1 (w - 2 * inset) ∧
    (max inset (min x (w - inset)) - inset) / max 1 (w - 2 * inset) ≤ 1 := by
  have hden : (0 : ℚ) < max 1 (w - 2 * inset) :=
    lt_of_lt_of_le one_pos (le_max_left _ _)
  constructor
  · apply div_nonneg _ (le_of_lt hden)
    have h := le_max_left inset (min x (w - inset))
    linarith
  · rw [div_le_one hden]
    have h1 : min x (w - inset) ≤ w - inset := min_le_right _ _
    have h2 : max inset (min x (w - inset)) ≤ max inset (w - inset) :=
      max_le_max le_rfl h1
    have h3 : max inset (w - inset) - inset ≤ max 1 (w - 2 * inset) := by
      rcases le_total inset (w - inset) with h | h
      · rw [max_eq_right h]
        have hmr := le_max_right (1 : ℚ) (w - 2 * inset)
        linarith
      · rw [max_eq_left h]
        have hml := le_max_left (1 : ℚ) (w - 2 * inset)
        linarith
    linarith

/-- A pointer coordinate at or below the inset pins the fraction to 0. -/
theorem clampFrac_pin_low (x w inset : ℚ) (hx : x ≤ inset) :
    (max inset (min x (w - inset)) - inset) / max 1 (w - 2 * inset) = 0 := by
  have hmin : min x (w - inset) ≤ inset := le_trans (min_le_left _ _) hx
  rw [max_eq_left hmin, sub_self, zero_div]

/-- With a nondegenerate control box, a pointer coordinate at or beyond
the far inset pins the fraction to 1. -/
theorem clampFrac_pin_high (x w inset : ℚ) (hbox : 1 ≤ w - 2 * inset)
    (hx : w - inset ≤ x) :
    (max inset (min x (w - inset)) - inset) / max 1 (w - 2 * inset) = 1 := by
  have h2 : inset ≤ w - inset := by linarith
  rw [min_eq_right hx, max_eq_right h2, max_eq_right hbox]
  rw [div_eq_iff (by linarith)]
  ring

/-- With a nondegenerate control box, the midpoint maps to fraction
one half. -/
theorem clampFrac_center (w inset : ℚ) (hbox : 1 ≤ w - 2 * inset) :
    (max inset (min (w / 2) (w - inset)) - inset) / max 1 (w - 2 * inset) = 1 / 2 := by
  have h2 : inset ≤ w / 2 := by linarith
  have h3 : w / 2 ≤ w - inset := by linarith
  rw [min_eq_left h3, max_eq_right h2, max_eq_right hbox]
  rw [div_eq_iff (by linarith)]
  ring

/-- A degenerate axis (extent at most twice the inset) floors the
denominator to 1, pins the clamp to the inset and yields fraction 0. -/
theorem clampFrac_degenerate (x w inset : ℚ) (hw : w ≤ 2 * inset) :
    max 1 (w - 2 * inset) = 1 ∧
    max inset (min x (w - inset)) = inset ∧
    (max inset (min x (w - inset)) - inset) / max 1 (w - 2 * inset) = 0 := by
  have h1 : max 1 (w - 2 * inset) = 1 := max_eq_left (by linarith)
  have hmin : min x (w - inset) ≤ inset := le_trans (min_le_right _ _) (by linarith)
  have h2 : max inset (min x (w - inset)) = inset := max_eq_left hmin
  exact ⟨h1, h2, by rw [h2, sub_self, zero_div]⟩

/-- Claim C7: under clamped-origin zoom the computed transform-origin
fractions always lie in the unit square; with a nondegenerate control
box a pointer at or outside the box pins the fraction to exactly 0 or
1 and the exact center yields (1/2, 1/2); pointer-down at the top-left
corner of a 400 by 300 rect with inset 80 clamps the position to
(80, 80) and yields origin (0, 0). -/
theorem claim_C7_clamped_origin_zoom (clientX clientY : ℚ) (rect : Rect) :
    (0 ≤ (ClampZoom.applyZoomCalc clientX clientY rect).originX ∧
     (ClampZoom.applyZoomCalc clientX clientY rect).originX ≤ 1 ∧
     0 ≤ (ClampZoom.applyZoomCalc clientX clientY rect).originY ∧
     (ClampZoom.applyZoomCalc clientX clientY rect).originY ≤ 1) ∧
    ((clientX - rect.left ≤ ClampZoom.CONTROL_INSET_PX →
        (ClampZoom.applyZoomCalc clientX clientY rect).originX = 0) ∧
     (1 ≤ rect.width - 2 * ClampZoom.CONTROL_INSET_PX →
      rect.width - ClampZoom.CONTROL_INSET_PX ≤ clientX - rect.left →
        (ClampZoom.applyZoomCalc clientX clientY rect).originX = 1)) ∧
    ((clientY - rect.top ≤ ClampZoom.CONTROL_INSET_PX →
        (ClampZoom.applyZoomCalc clientX clientY rect).originY = 0) ∧
     (1 ≤ rect.height - 2 * ClampZoom.CONTROL_INSET_PX →
      rect.height - ClampZoom.CONTROL_INSET_PX ≤ clientY - rect.top →
        (ClampZoom.applyZoomCalc clientX clientY rect).originY = 1)) ∧
    (1 ≤ rect.width - 2 * ClampZoom.CONTROL_INSET_PX →
     1 ≤ rect.height - 2 * ClampZoom.CONTROL_INSET_PX →
     clientX - rect.left = rect.width / 2 →
     clientY - rect.top = rect.height / 2 →
       (ClampZoom.applyZoomCalc clientX clientY rect).originX = 1 / 2 ∧
       (ClampZoom.applyZoomCalc clientX clientY rect).originY = 1 / 2) ∧
    ((ClampZoom.applyZoomCalc 0 0
        { left := 0, top := 0, width := 400, height := 300 }).clampedX = 80 ∧
     (ClampZoom.applyZoomCalc 0 0
        { left := 0, top := 0, width := 400, height := 300 }).clampedY = 80 ∧
     (ClampZoom.applyZoomCalc 0 0
        { left := 0, top := 0, width := 400, height := 300 }).originX = 0 ∧
     (ClampZoom.applyZoomCalc 0 0
        { left := 0, top := 0, width := 400, height := 300 }).originY = 0) := by
  refine ⟨?_, ⟨?_, ?_⟩, ⟨?_, ?_⟩, ?_, ?_⟩
  case refine_7 =>
    simp only [ClampZoom.applyZoomCalc, ClampZoom.controlBoxWidth,
      ClampZoom.controlBoxHeight, ClampZoom.CONTROL_INSET_PX, min_def, max_def]
    norm_num
  · simp only [ClampZoom.applyZoomCalc, ClampZoom.controlBoxWidth,
      ClampZoom.controlBoxHeight]
    exact ⟨(clampFrac_bounds (clientX - rect.left) rect.width _).1,
      (clampFrac_bounds (clientX - rect.left) rect.width _).2,
      (clampFrac_bounds (clientY - rect.top) rect.height _).1,
      (clampFrac_bounds (clientY - rect.top) rect.height _).2⟩
  · intro hx
    simp only [ClampZoom.applyZoomCalc, ClampZoom.controlBoxWidth]
    exact clampFrac_pin_low (clientX - rect.left) rect.width _ hx
  · intro hbox hx
    simp only [ClampZoom.applyZoomCalc, ClampZoom.controlBoxWidth]
    exact clampFrac_pin_high (clientX - rect.left) rect.width _ hbox hx
  · intro hy
    simp only [ClampZoom.applyZoomCalc, ClampZoom.controlBoxHeight]
    exact clampFrac_pin_low (clientY - rect.top) rect.height _ hy
  · intro hbox hy
    simp only [ClampZoom.applyZoomCalc, ClampZoom.controlBoxHeight]
    exact clampFrac_pin_high (clientY - rect.top) rect.height _ hbox hy
  · intro hbw hbh hcx hcy
    simp only [ClampZoom.applyZoomCalc, ClampZoom.controlBoxWidth,
      ClampZoom.controlBoxHeight]
    rw [hcx, hcy]
    exact ⟨clampFrac_center rect.width _ hbw, clampFrac_center rect.height _ hbh⟩

/-- Witness for C7: on the 400 by 300 rect, a pointer far beyond the
right inset pins originX to 1, and the exact center yields
(1/2, 1/2). -/
theorem claim_C7_witness :
    (ClampZoom.applyZoomCalc 500 150
      { left := 0, top := 0, width := 400, height := 300 }).originX = 1 ∧
    (ClampZoom.applyZoomCalc 200 150
      { left := 0, top := 0, width := 400, height := 300 }).originX = 1 / 2 ∧
    (ClampZoom.applyZoomCalc 200 150
      { left := 0, top := 0, width := 400, height := 300 }).originY = 1 / 2 :=
  ⟨((claim_C7_clamped_origin_zoom 500 150
      { left := 0, top := 0, width := 400, height := 300 }).2.1).2
      (by norm_num [ClampZoom.CONTROL_INSET_PX])
      (by norm_num [ClampZoom.CONTROL_INSET_PX]),
   ((claim_C7_clamped_origin_zoom 200 150
      { left := 0, top := 0, width := 400, height := 300 }).2.2.2.1
      (by norm_num [ClampZoom.CONTROL_INSET_PX])
      (by norm_num [ClampZoom.CONTROL_INSET_PX])
      (by norm_num) (by norm_num)).1,
   ((claim_C7_clamped_origin_zoom 200 150
      { left := 0, top := 0, width := 400, height := 300 }).2.2.2.1
      (by norm_num [ClampZoom.CONTROL_INSET_PX])
      (by norm_num [ClampZoom.CONTROL_INSET_PX])
      (by norm_num) (by norm_num)).2⟩

/-- Claim C10: the clamped-origin zoom computation is total on
degenerate geometry: the control-box denominators are always strictly
positive (floored at 1, so no division by zero), a degenerate axis pins
the clamped coordinate to the inset and its origin fraction to 0, and
the fractions stay within the unit interval in every case. -/
theorem claim_C10_degenerate_geometry_total (clientX clientY : ℚ) (rect : Rect) :
    (0 < ClampZoom.controlBoxWidth rect ∧ 0 < ClampZoom.controlBoxHeight rect) ∧
    (rect.width ≤ 2 * ClampZoom.CONTROL_INSET_PX →
      ClampZoom.controlBoxWidth rect = 1 ∧
      (ClampZoom.applyZoomCalc clientX clientY rect).clampedX
        = ClampZoom.CONTROL_INSET_PX ∧
      (ClampZoom.applyZoomCalc clientX clientY rect).originX = 0) ∧
    (rect.height ≤ 2 * ClampZoom.CONTROL_INSET_PX →
      ClampZoom.controlBoxHeight rect = 1 ∧
      (ClampZoom.applyZoomCalc clientX clientY rect).clampedY
        = ClampZoom.CONTROL_INSET_PX ∧
      (ClampZoom.applyZoomCalc clientX clientY rect).originY = 0) ∧
    (0 ≤ (ClampZoom.applyZoomCalc clientX clientY rect).originX ∧
     (ClampZoom.applyZoomCalc clientX clientY rect).originX ≤ 1 ∧
     0 ≤ (ClampZoom.applyZoomCalc clientX clientY rect).originY ∧
     (ClampZoom.applyZoomCalc clientX clientY rect).originY ≤ 1) := by
  refine ⟨?_, ?_, ?_, ?_⟩
  · constructor
    · exact lt_of_lt_of_le one_pos (le_max_left _ _)
    · exact lt_of_lt_of_le one_pos (le_max_left _ _)
  · intro hw
    have h := clampFrac_degenerate (clientX - rect.left) rect.width
      ClampZoom.CONTROL_INSET_PX hw
    refine ⟨?_, ?_, ?_⟩
    · simp only [ClampZoom.controlBoxWidth]
      exact h.1
    · simp only [ClampZoom.applyZoomCalc]
      exact h.2.1
    · simp only [ClampZoom.applyZoomCalc, ClampZoom.controlBoxWidth]
      exact h.2.2
  · intro hh
    have h := clampFrac_degenerate (clientY - rect.top) rect.height
      ClampZoom.CONTROL_INSET_PX hh
    refine ⟨?_, ?_, ?_⟩
    · simp only [ClampZoom.controlBoxHeight]
      exact h.1
    · simp only [ClampZoom.applyZoomCalc]
      exact h.2.1
    · simp only [ClampZoom.applyZoomCalc, ClampZoom.controlBoxHeight]
      exact h.2.2
  · simp only [ClampZoom.applyZoomCalc, ClampZoom.controlBoxWidth,
      ClampZoom.controlBoxHeight]
    exact ⟨(clampFrac_bounds (clientX - rect.left) rect.width _).1,
      (clampFrac_bounds (clientX - rect.left) rect.width _).2,
      (clampFrac_bounds (clientY - rect.top) rect.height _).1,
      (clampFrac_bounds (clientY - rect.top) rect.height _).2⟩

/-- Witness for C10: a 100 by 90 rect (both extents below twice the
80 px inset) still yields denominators 1 and origin (0, 0). -/
theorem claim_C10_witness :
    ClampZoom.controlBoxWidth { left := 0, top := 0, width := 100, height := 90 } = 1 ∧
    (ClampZoom.applyZoomCalc 70 40
      { left := 0, top := 0, width := 100, height := 90 }).originX = 0 ∧
    ClampZoom.controlBoxHeight { left := 0, top := 0, width := 100, height := 90 } = 1 ∧
    (ClampZoom.applyZoomCalc 70 40
      { left := 0, top := 0, width := 100, height := 90 }).originY = 0 :=
  have h := claim_C10_degenerate_geometry_total 70 40
    { left := 0, top := 0, width := 100, height := 90 }
  ⟨(h.2.1 (by norm_num [ClampZoom.CONTROL_INSET_PX])).1,
   (h.2.1 (by norm_num [ClampZoom.CONTROL_INSET_PX])).2.2,
   (h.2.2.1 (by norm_num [ClampZoom.CONTROL_INSET_PX])).1,
   (h.2.2.1 (by norm_num [ClampZoom.CONTROL_INSET_PX])).2.2⟩

/-- clamp stays inside a nonempty interval. -/
theorem clamp_mem (value lo hi : ℚ) (h : lo ≤ hi) :
    lo ≤ Magnifier.clamp value lo hi ∧ Magnifier.clamp value lo hi ≤ hi := by
  unfold Magnifier.clamp
  exact ⟨le_max_left _ _, max_le h (min_le_left _ _)⟩

/-- Claim C6: for every pointer position, moveMagnifier sets the lens
background position per axis to -(naturalCoord * MAG_ZOOM - MAG_RADIUS),
where naturalCoord is the pointer position clamped into the image rect
and scaled by the natural-to-displayed ratio, and clamps the lens
left/top into [0, containerSize - MAG_DIAMETER] in each axis (the
container being at least lens-sized and the natural dimensions
nonzero). -/
theorem claim_C6_magnifier_formula (clientX clientY : ℚ)
    (imgRect containerRect : Rect) (nW nH : ℚ)
    (hnW : nW ≠ 0) (hnH : nH ≠ 0)
    (hcw : Magnifier.MAG_DIAMETER ≤ containerRect.width)
    (hch : Magnifier.MAG_DIAMETER ≤ containerRect.height) :
    ∃ r, Magnifier.moveMagnifier clientX clientY imgRect containerRect nW nH = some r ∧
      r.bgX = -(Magnifier.clamp (clientX - imgRect.left) 0 imgRect.width
                  * (nW / imgRect.width) * Magnifier.MAG_ZOOM
                - Magnifier.MAG_RADIUS) ∧
      r.bgY = -(Magnifier.clamp (clientY - imgRect.top) 0 imgRect.height
                  * (nH / imgRect.height) * Magnifier.MAG_ZOOM
                - Magnifier.MAG_RADIUS) ∧
      0 ≤ r.left ∧ r.left ≤ containerRect.width - Magnifier.MAG_DIAMETER ∧
      0 ≤ r.top ∧ r.top ≤ containerRect.height - Magnifier.MAG_DIAMETER := by
  simp only [Magnifier.moveMagnifier]
  rw [if_neg (by simp [hnW, hnH])]
  refine ⟨_, rfl, rfl, rfl, ?_, ?_, ?_, ?_⟩
  · exact (clamp_mem _ 0 _ (by linarith)).1
  · exact (clamp_mem _ 0 _ (by linarith)).2
  · exact (clamp_mem _ 0 _ (by linarith)).1
  · exact (clamp_mem _ 0 _ (by linarith)).2

/-- Witness for C6: a concrete pointer position over a 200 by 100
image with 400 by 300 natural size inside a 360 by 240 container. -/
theorem claim_C6_witness :
    ∃ r, Magnifier.moveMagnifier 50 40
        { left := 10, top := 20, width := 200, height := 100 }
        { left := 0, top := 0, width := 360, height := 240 } 400 300 = some r ∧
      r.bgX = -(Magnifier.clamp (50 - 10) 0 200 * (400 / 200) * Magnifier.MAG_ZOOM
                - Magnifier.MAG_RADIUS) ∧
      r.bgY = -(Magnifier.clamp (40 - 20) 0 100 * (300 / 100) * Magnifier.MAG_ZOOM
                - Magnifier.MAG_RADIUS) ∧
      0 ≤ r.left ∧ r.left ≤ 360 - Magnifier.MAG_DIAMETER ∧
      0 ≤ r.top ∧ r.top ≤ 240 - Magnifier.MAG_DIAMETER :=
  claim_C6_magnifier_formula 50 40
    { left := 10, top := 20, width := 200, height := 100 }
    { left := 0, top := 0, width := 360, height := 240 } 400 300
    (by norm_num) (by norm_num)
    (by norm_num [Magnifier.MAG_DIAMETER])
    (by norm_num [Magnifier.MAG_DIAMETER])

/-- applyMove only records lens style writes; it never touches the
gesture bookkeeping fields. -/
theorem applyMove_gesture_fields (s : Magnifier.MagState) (e : PointerEvent)
    (nW nH : ℚ) :
    (Magnifier.applyMove s e nW nH).magnifierActive = s.magnifierActive ∧
    (Magnifier.applyMove s e nW nH).activePointerId = s.activePointerId ∧
    (Magnifier.applyMove s e nW nH).magnifierVisible = s.magnifierVisible := by
  unfold Magnifier.applyMove
  rcases hmv : Magnifier.moveMagnifier e.clientX e.clientY e.liveImageRect
      e.liveContainerRect nW nH with _ | r <;>
    simp [hmv]

/-- A primary pointer-down in the clamped-zoom variant always starts or
restarts a gesture: it snapshots the live rect, captures the pointer
and sets the zoom flag (there is no reentrancy guard in
handlePointerDown). -/
theorem handlePointerDown_primary_snapshot (s : ClampZoom.ZoomState)
    (e : PointerEvent) (hp : e.isPrimary = true) :
    (ClampZoom.handlePointerDown s e).imageRectCache = some e.liveImageRect ∧
    (ClampZoom.handlePointerDown s e).capturedPointerId = some e.pointerId ∧
    (ClampZoom.handlePointerDown s e).isZooming = true := by
  rw [ClampZoom.handlePointerDown,
    if_neg (by simp [ClampZoom.ALLOW_MOUSE_INPUT]), if_neg (by simp [hp])]
  simp [ClampZoom.applyZoom]

/-- Claim C3 counterexample: in the fixed-point zoom variant, two
pointer-move events from the same captured pointer at the same viewport
position but with different live image rects yield different
transforms, so the move computation uses freshly measured geometry, not
a snapshot frozen at pointer-down. -/
theorem claim_C3_counterexample :
    sampleEventA.pointerId = sampleEventB.pointerId ∧
    sampleEventA.clientX = sampleEventB.clientX ∧
    sampleEventA.clientY = sampleEventB.clientY ∧
    (FixedZoom.moveZoom FixedZoom.sampleActive sampleEventA).transformOrigin
      ≠ (FixedZoom.moveZoom FixedZoom.sampleActive sampleEventB).transformOrigin := by
  refine ⟨rfl, rfl, rfl, ?_⟩
  simp [FixedZoom.moveZoom, FixedZoom.applyZoomAt, FixedZoom.sampleActive,
    sampleEventA, sampleEventB]
  norm_num

/-- Claim C3, amended: only the clamped-origin variant freezes the
geometry snapshot; there, every pointer-move recomputes the transform
from the imageRectCache snapshot taken at pointer-down — the move
result is independent of the live geometry carried by the event and
never changes the snapshot — while the fixed-point zoom and magnifier
variants measure the image rect fresh on every event. -/
theorem claim_C3_amended_snapshot_semantics :
    (∀ (s : ClampZoom.ZoomState) (e e' : PointerEvent),
      e.clientX = e'.clientX → e.clientY = e'.clientY →
      ClampZoom.handlePointerMove s e = ClampZoom.handlePointerMove s e') ∧
    (∀ (s : ClampZoom.ZoomState) (e : PointerEvent),
      (ClampZoom.handlePointerMove s e).imageRectCache = s.imageRectCache) ∧
    (∀ (s : ClampZoom.ZoomState) (e : PointerEvent), e.isPrimary = true →
      (ClampZoom.handlePointerDown s e).imageRectCache = some e.liveImageRect) ∧
    (∀ (s : FixedZoom.Zoom2State) (e : PointerEvent),
      s.zoomActive = true → some e.pointerId = s.zoomPointerId →
      (FixedZoom.moveZoom s e).transformOrigin
        = some (e.clientX - e.liveImageRect.left, e.clientY - e.liveImageRect.top)) ∧
    (∀ (s : Magnifier.MagState) (e : PointerEvent) (nW nH : ℚ),
      s.magnifierActive = true → some e.pointerId = s.activePointerId →
      Magnifier.updateMagnifier s e nW nH = Magnifier.applyMove s e nW nH) := by
  refine ⟨?_, ?_, ?_, ?_, ?_⟩
  · intro s e e' hX hY
    by_cases hz : s.isZooming = false
    · rw [ClampZoom.handlePointerMove, if_pos hz,
        ClampZoom.handlePointerMove, if_pos hz]
    · rw [ClampZoom.handlePointerMove, if_neg hz,
        ClampZoom.handlePointerMove, if_neg hz]
      rcases hc : s.imageRectCache with _ | rect
      · simp [ClampZoom.applyZoom, hc]
      · simp [ClampZoom.applyZoom, hc, hX, hY]
  · intro s e
    by_cases hz : s.isZooming = false
    · rw [ClampZoom.handlePointerMove, if_pos hz]
    · rw [ClampZoom.handlePointerMove, if_neg hz]
      rcases hc : s.imageRectCache with _ | rect
      · simp [ClampZoom.applyZoom, hc]
      · simp [ClampZoom.applyZoom, hc]
  · intro s e hp
    exact (handlePointerDown_primary_snapshot s e hp).1
  · intro s e hz hid
    rw [FixedZoom.moveZoom, if_neg (by simp [hz, hid])]
    rfl
  · intro s e nW nH hm hid
    rw [Magnifier.updateMagnifier, if_neg (by simp [hm, hid])]

/-- Witness for C3 amended: the frozen-snapshot property of the
clamped-zoom variant and the fresh-geometry behavior of the fixed-point
variant, on the concrete sample gesture and events. -/
theorem claim_C3_amended_witness :
    ClampZoom.handlePointerMove ClampZoom.sampleActiveZoom sampleEventA
      = ClampZoom.handlePointerMove ClampZoom.sampleActiveZoom sampleEventB ∧
    (ClampZoom.handlePointerMove ClampZoom.sampleActiveZoom sampleEventB).imageRectCache
      = ClampZoom.sampleActiveZoom.imageRectCache ∧
    (ClampZoom.handlePointerDown ClampZoom.sampleActiveZoom sampleEventOther).imageRectCache
      = some sampleEventOther.liveImageRect ∧
    (FixedZoom.moveZoom FixedZoom.sampleActive sampleEventB).transformOrigin
      = some (sampleEventB.clientX - sampleEventB.liveImageRect.left,
              sampleEventB.clientY - sampleEventB.liveImageRect.top) :=
  ⟨claim_C3_amended_snapshot_semantics.1 ClampZoom.sampleActiveZoom
      sampleEventA sampleEventB rfl rfl,
   claim_C3_amended_snapshot_semantics.2.1 ClampZoom.sampleActiveZoom sampleEventB,
   claim_C3_amended_snapshot_semantics.2.2.1 ClampZoom.sampleActiveZoom
      sampleEventOther rfl,
   claim_C3_amended_snapshot_semantics.2.2.2.1 FixedZoom.sampleActive
      sampleEventB rfl rfl⟩

/-- Claim C8 counterexample: in the clamped-zoom variant, while a
gesture from pointer 1 is active, a primary pointer-down from the
different pointer 2 re-snapshots the geometry and changes the captured
pointer id. -/
theorem claim_C8_counterexample :
    ClampZoom.sampleActiveZoom.isZooming = true ∧
    ClampZoom.sampleActiveZoom.capturedPointerId = some 1 ∧
    sampleEventOther.pointerId = 2 ∧
    (ClampZoom.handlePointerDown ClampZoom.sampleActiveZoom sampleEventOther).imageRectCache
      ≠ ClampZoom.sampleActiveZoom.imageRectCache ∧
    (ClampZoom.handlePointerDown ClampZoom.sampleActiveZoom sampleEventOther).capturedPointerId
      = some 2 := by
  have h := handlePointerDown_primary_snapshot ClampZoom.sampleActiveZoom
    sampleEventOther rfl
  refine ⟨rfl, rfl, rfl, ?_, h.2.1⟩
  rw [h.1]
  simp [ClampZoom.sampleActiveZoom, sampleEventOther, sampleEventA]

/-- Claim C8, amended: while a gesture is active, the magnifier and
fixed-point zoom variants ignore every further pointer-down (any id),
so no new gesture starts and the captured id is unchanged; the
clamped-origin variant ignores non-primary pointer-downs, but a primary
pointer-down while active re-snapshots the geometry and re-captures;
the magnifier and fixed-point variants never check isPrimary, so a
non-primary touch can start a gesture from idle. -/
theorem claim_C8_amended_pointer_guards :
    (∀ (s : Magnifier.MagState) (e : PointerEvent) (nW nH : ℚ),
      s.magnifierActive = true → Magnifier.onPointerDown s e nW nH = s) ∧
    (∀ (s : FixedZoom.Zoom2State) (e : PointerEvent),
      s.zoomActive = true → FixedZoom.onPointerDown s e = s) ∧
    (∀ (s : ClampZoom.ZoomState) (e : PointerEvent),
      e.isPrimary = false → ClampZoom.handlePointerDown s e = s) ∧
    (∀ (s : ClampZoom.ZoomState) (e : PointerEvent), e.isPrimary = true →
      (ClampZoom.handlePointerDown s e).imageRectCache = some e.liveImageRect ∧
      (ClampZoom.handlePointerDown s e).capturedPointerId = some e.pointerId) ∧
    (∀ (s : Magnifier.MagState) (e : PointerEvent) (nW nH : ℚ),
      s.magnifierActive = false → e.pointerType = "touch" →
      (Magnifier.onPointerDown s e nW nH).magnifierActive = true ∧
      (Magnifier.onPointerDown s e nW nH).activePointerId = some e.pointerId) := by
  refine ⟨?_, ?_, ?_, ?_, ?_⟩
  · intro s e nW nH hm
    by_cases ht : e.pointerType = "touch" ∨ e.pointerType = "pen"
    · rw [Magnifier.onPointerDown, if_pos ht, Magnifier.showMagnifier, if_pos hm]
    · rw [Magnifier.onPointerDown, if_neg ht]
  · intro s e hz
    by_cases ht : e.pointerType = "touch" ∨ e.pointerType = "pen"
    · rw [FixedZoom.onPointerDown, if_pos ht, FixedZoom.startZoom, if_pos hz]
    · rw [FixedZoom.onPointerDown, if_neg ht]
  · intro s e hp
    rw [ClampZoom.handlePointerDown,
      if_neg (by simp [ClampZoom.ALLOW_MOUSE_INPUT]), if_pos hp]
  · intro s e hp
    exact ⟨(handlePointerDown_primary_snapshot s e hp).1,
      (handlePointerDown_primary_snapshot s e hp).2.1⟩
  · intro s e nW nH hm ht
    rw [Magnifier.onPointerDown, if_pos (Or.inl ht), Magnifier.showMagnifier,
      if_neg (by simp [hm])]
    have h := applyMove_gesture_fields
      { s with activePointerId := some e.pointerId, magnifierActive := true,
               magnifierVisible := true } e nW nH
    exact ⟨h.1, h.2.1⟩

/-- Witness for C8 amended: the guards on the concrete active states
and the non-primary / primary pointer-down behaviors. -/
theorem claim_C8_amended_witness :
    Magnifier.onPointerDown Magnifier.sampleActiveMag sampleEventOther 400 300
      = Magnifier.sampleActiveMag ∧
    FixedZoom.onPointerDown FixedZoom.sampleActive sampleEventOther
      = FixedZoom.sampleActive ∧
    ClampZoom.handlePointerDown ClampZoom.sampleActiveZoom
        { sampleEventA with isPrimary := false }
      = ClampZoom.sampleActiveZoom ∧
    (ClampZoom.handlePointerDown ClampZoom.sampleActiveZoom sampleEventOther).capturedPointerId
      = some sampleEventOther.pointerId ∧
    (Magnifier.onPointerDown Magnifier.sampleIdleMag
        { sampleEventA with isPrimary := false } 400 300).magnifierActive = true :=
  ⟨claim_C8_amended_pointer_guards.1 Magnifier.sampleActiveMag sampleEventOther 400 300 rfl,
   claim_C8_amended_pointer_guards.2.1 FixedZoom.sampleActive sampleEventOther rfl,
   claim_C8_amended_pointer_guards.2.2.1 ClampZoom.sampleActiveZoom
     { sampleEventA with isPrimary := false } rfl,
   (claim_C8_amended_pointer_guards.2.2.2.1 ClampZoom.sampleActiveZoom
     sampleEventOther rfl).2,
   (claim_C8_amended_pointer_guards.2.2.2.2 Magnifier.sampleIdleMag
     { sampleEventA with isPrimary := false } 400 300 rfl rfl).1⟩

/-- Witness for C9: an in-range index with an empty cache, and an
out-of-range index, both leave the sample states untouched. -/
theorem claim_C9_witness :
    displayFrame sampleNoCacheState 0 = sampleNoCacheState ∧
    displayFrame samplePlayerState 5 = samplePlayerState :=
  ⟨claim_C9_displayFrame_defensive.1 sampleNoCacheState 0 (by decide),
   claim_C9_displayFrame_defensive.2 samplePlayerState 5 (by decide)⟩

end CloudViews
